import Mathlib

/-!
Verification of the ESG scoring engine (src/ibm_project/src/scoring.py,
class ESGScorer) against its specification.

The embedding models Python runtime values as `PyVal`, dictionaries as
association lists, numeric values as exact rationals (Python's float
arithmetic is idealized to ℚ; every constant in the scorer is an exact
decimal), `round(x, n)` as round-half-to-even on `x * 10^n`, and fallible
operations (attribute access on non-mappings, order comparisons between
numbers and non-numbers) as `Except PyErr`.  String rendering of
interpolated numeric values (`pyStr`) is a simplified stand-in for
Python's `str()`; no verified property depends on the rendered digits.
-/

/-- A Python runtime value, as far as the scorer can observe one: `None`,
a bool, a number (int and float idealized to ℚ), a string, or a dict
(association list of string keys; Python dict keys are unique). -/
inductive PyVal where
  | vNone
  | vBool (b : Bool)
  | vNum (q : ℚ)
  | vStr (s : String)
  | vDict (es : List (String × PyVal))

/-- Python truthiness (`bool(v)`): None and empty containers are falsy,
numbers are truthy when nonzero. -/
def PyVal.truthy : PyVal → Bool
  | .vNone => false
  | .vBool b => b
  | .vNum q => decide (q ≠ 0)
  | .vStr s => decide (s ≠ "")
  | .vDict es => !es.isEmpty

/-- Whether the value is Python's `None` (`v is None`). -/
def PyVal.isNone : PyVal → Bool
  | .vNone => true
  | _ => false

/-- The numeric content of a value for Python's arithmetic comparisons:
bools compare as 0/1; None, strings and dicts have none (an order
comparison with a number raises TypeError). -/
def PyVal.asNum : PyVal → Option ℚ
  | .vBool b => some (if b then 1 else 0)
  | .vNum q => some q
  | _ => none

/-- Simplified stand-in for Python's `str()` of a scored value, used only
inside rationale strings. -/
def pyStr : PyVal → String
  | .vNone => "None"
  | .vBool true => "True"
  | .vBool false => "False"
  | .vNum q => if q.den = 1 then toString q.num else toString q.num ++ "/" ++ toString q.den
  | .vStr s => s
  | .vDict _ => "dict"

/-- A Python dict as the scorer sees it: an association list. -/
abbrev Dict := List (String × PyVal)

/-- Python's `d.get(k)`: the stored value, or `None` when the key is
missing (so a missing key and a stored `None` are indistinguishable to
the scorer, exactly as in the source). -/
def dictGet (d : Dict) (k : String) : PyVal :=
  match d with
  | [] => PyVal.vNone
  | (k2, v) :: rest => if k2 = k then v else dictGet rest k

/-- Python's `d.get(k, default)`. -/
def dictGetD (d : Dict) (k : String) (default : PyVal) : PyVal :=
  match d with
  | [] => default
  | (k2, v) :: rest => if k2 = k then v else dictGetD rest k default

/-- The runtime errors the scorer can actually raise: AttributeError
(calling `.get` on a non-mapping) and TypeError (an order comparison
between a number and a non-number).  The source defines no error type of
its own. -/
inductive PyErr where
  | attributeError (msg : String)
  | typeError (msg : String)
deriving Repr, DecidableEq

/-- `v.get(...)` requires `v` to be a mapping; on anything else Python
raises AttributeError. -/
def asDict : PyVal → Except PyErr Dict
  | .vDict es => .ok es
  | _ => .error (PyErr.attributeError "object has no attribute get")

/-- Floor of a rational, computably (`Rat.num / Rat.den` with integer
Euclidean division, which Mathlib proves equal to `Int.floor`). -/
def ratFloor (x : ℚ) : ℤ := x.num / (x.den : ℤ)

/-- Round-half-to-even to an integer, Python's `round` on exact values. -/
def roundHalfEven (x : ℚ) : ℤ :=
  let f := ratFloor x
  let r := x - (f : ℚ)
  if r < 1/2 then f
  else if 1/2 < r then f + 1
  else if f % 2 = 0 then f else f + 1

/-- Python's `round(x, 2)` on exact values. -/
def pyRound2 (x : ℚ) : ℚ := (roundHalfEven (x * 100) : ℚ) / 100

/-- Python's `round(x, 1)` on exact values. -/
def pyRound1 (x : ℚ) : ℚ := (roundHalfEven (x * 10) : ℚ) / 10

/-- Result of one category scorer (the dict returned by
`score_environmental` / `score_social` / `score_governance`). -/
structure ScoreResult where
  score : ℚ
  max_score : ℚ
  percentage : ℚ
  details : List String
deriving Repr, DecidableEq

/-- One sub-criterion of a category scorer: the points it adds to `score`
and the rationale lines it appends to `details`.  Sub-criteria whose
guards may order-compare a non-number raise TypeError, hence `Except`. -/
abbrev Award := ℚ × List String

/-- The tail of every category scorer (scoring.py:76-83, 168-175,
238-245): cap the summed points at `max_score = 10`, round, derive the
percentage, and substitute the category's fallback string when no
sub-criterion produced a rationale line. -/
def finalizeScore (fallback : String) (a : Award) : ScoreResult :=
  let score := min a.1 10
  { score := pyRound2 score
    max_score := 10
    percentage := pyRound1 (score / 10 * 100)
    details := if a.2.isEmpty then [fallback] else a.2 }

/-- The guard shape `if value and value is not None:` (scoring.py:24, 28,
32, 66, 71): Python truthiness plus a redundant identity test; awards
fixed points and one rationale line. -/
def truthyAward (pts : ℚ) (line : String) (v : PyVal) : Award :=
  if v.truthy && !v.isNone then (pts, [line]) else (0, [])

/-- The guard shape `if value is not None and value > 0:` followed by a
tier chain on the numeric value (scoring.py:38, 54, 93, 109, 125, 157,
185, 206).  On a non-None non-number the `> 0` comparison raises
TypeError; a present non-positive number awards nothing. -/
def posGuarded (tier : ℚ → Award) (v : PyVal) : Except PyErr Award :=
  if v.isNone then .ok (0, [])
  else match v.asNum with
  | none => .error (PyErr.typeError "comparison of number with non-number")
  | some q => if 0 < q then .ok (tier q) else .ok (0, [])

/-- The guard shape `if value is not None:` followed by a tier chain
(scoring.py:141): every present value is tiered, and the first tier
comparison raises TypeError on a non-number. -/
def presGuarded (tier : ℚ → Award) (v : PyVal) : Except PyErr Award :=
  if v.isNone then .ok (0, [])
  else match v.asNum with
  | none => .error (PyErr.typeError "comparison of number with non-number")
  | some q => .ok (tier q)

/-! ### Environmental sub-criteria (scoring.py:20-73) -/

/-- scoring.py:24-26 — `if scope1 and scope1 is not None: score += 1.5`. -/
def scope1Award (v : PyVal) : Award :=
  truthyAward 1.5 "✓ Reports Scope 1 emissions" v

/-- scoring.py:28-30 — scope 2, 0.5 points on a truthy value. -/
def scope2Award (v : PyVal) : Award :=
  truthyAward 0.5 "✓ Reports Scope 2 emissions" v

/-- scoring.py:32-34 — scope 3, 1 point on a truthy value. -/
def scope3Award (v : PyVal) : Award :=
  truthyAward 1 "✓ Reports Scope 3 emissions (comprehensive)" v

/-- The renewable-energy tier chain (scoring.py:39-50). -/
def renewableTier (v : PyVal) (q : ℚ) : Award :=
  if 75 ≤ q then (3, ["✓ Excellent renewable energy usage (" ++ pyStr v ++ "%)"])
  else if 50 ≤ q then (2.5, ["✓ Good renewable energy usage (" ++ pyStr v ++ "%)"])
  else if 25 ≤ q then (1.5, ["○ Moderate renewable energy usage (" ++ pyStr v ++ "%)"])
  else (0.5, ["⚠ Low renewable energy usage (" ++ pyStr v ++ "%)"])

/-- scoring.py:37-50 — renewable energy. -/
def renewableAward (v : PyVal) : Except PyErr Award :=
  posGuarded (renewableTier v) v

/-- The waste-management tier chain (scoring.py:55-63): no lowest-tier
`else`, so a value in (0, 25) awards nothing. -/
def wasteTier (v : PyVal) (q : ℚ) : Award :=
  if 75 ≤ q then (1, ["✓ High waste diversion rate (" ++ pyStr v ++ "%)"])
  else if 50 ≤ q then (0.7, ["○ Moderate waste diversion (" ++ pyStr v ++ "%)"])
  else if 25 ≤ q then (0.4, ["⚠ Limited waste diversion (" ++ pyStr v ++ "%)"])
  else (0, [])

/-- scoring.py:53-63 — waste management. -/
def wasteAward (v : PyVal) : Except PyErr Award :=
  posGuarded (wasteTier v) v

/-- scoring.py:66-68 — water usage: truthiness only, 0.5 points. -/
def waterAward (v : PyVal) : Award :=
  truthyAward 0.5 "✓ Reports water usage metrics" v

/-- scoring.py:71-73 — energy efficiency: truthiness only, 0.5 points. -/
def energyAward (v : PyVal) : Award :=
  truthyAward 0.5 "✓ Reports energy efficiency metrics" v

/-- The uncapped environmental sum and rationale list (scoring.py:16-73),
sub-criteria in source order; a TypeError raised by the renewable block
wins over one raised later by the waste block, as in Python. -/
def envTotal (m : Dict) : Except PyErr Award :=
  let s1 := scope1Award (dictGet m "scope_1_emissions")
  let s2 := scope2Award (dictGet m "scope_2_emissions")
  let s3 := scope3Award (dictGet m "scope_3_emissions")
  let w := waterAward (dictGet m "water_usage")
  let en := energyAward (dictGet m "energy_efficiency")
  match renewableAward (dictGet m "renewable_energy_percentage"),
        wasteAward (dictGet m "waste_recycled_percentage") with
  | .ok a4, .ok a5 =>
    .ok (s1.1 + s2.1 + s3.1 + a4.1 + a5.1 + w.1 + en.1,
         s1.2 ++ s2.2 ++ s3.2 ++ a4.2 ++ a5.2 ++ w.2 ++ en.2)
  | .error e, _ => .error e
  | _, .error e => .error e

/-- Fallback rationale of the environmental scorer (scoring.py:82). -/
def envFallback : String := "⚠ Limited environmental data available"

/-- `ESGScorer.score_environmental` (scoring.py:14-83).  Takes the raw
value handed over by `calculate_overall_score`; a non-mapping raises
AttributeError at its first `.get` (Python checks no annotations). -/
def score_environmental (v : PyVal) : Except PyErr ScoreResult :=
  match asDict v with
  | .error e => .error e
  | .ok m =>
    match envTotal m with
    | .error e => .error e
    | .ok a => .ok (finalizeScore envFallback a)

/-! ### Social sub-criteria (scoring.py:91-166) -/

/-- The workforce-diversity tier chain (scoring.py:94-105). -/
def workforceTier (v : PyVal) (q : ℚ) : Award :=
  if 45 ≤ q then (2, ["✓ Strong workforce diversity (" ++ pyStr v ++ "% women)"])
  else if 35 ≤ q then (1.5, ["○ Good workforce diversity (" ++ pyStr v ++ "% women)"])
  else if 25 ≤ q then (1, ["⚠ Improving workforce diversity (" ++ pyStr v ++ "% women)"])
  else (0.5, ["⚠ Limited workforce diversity (" ++ pyStr v ++ "% women)"])

/-- scoring.py:92-105 — workforce gender diversity. -/
def workforceAward (v : PyVal) : Except PyErr Award :=
  posGuarded (workforceTier v) v

/-- The leadership-diversity tier chain (scoring.py:110-121). -/
def leadershipTier (v : PyVal) (q : ℚ) : Award :=
  if 40 ≤ q then (3, ["✓ Excellent leadership diversity (" ++ pyStr v ++ "% women)"])
  else if 30 ≤ q then (2, ["○ Good leadership diversity (" ++ pyStr v ++ "% women)"])
  else if 20 ≤ q then (1, ["⚠ Limited leadership diversity (" ++ pyStr v ++ "% women)"])
  else (0.5, ["⚠ Very limited leadership diversity (" ++ pyStr v ++ "% women)"])

/-- scoring.py:108-121 — leadership gender diversity. -/
def leadershipAward (v : PyVal) : Except PyErr Award :=
  posGuarded (leadershipTier v) v

/-- The board-diversity tier chain (scoring.py:126-137). -/
def boardDivTier (v : PyVal) (q : ℚ) : Award :=
  if 40 ≤ q then (2, ["✓ Strong board diversity (" ++ pyStr v ++ "%)"])
  else if 30 ≤ q then (1.5, ["○ Good board diversity (" ++ pyStr v ++ "%)"])
  else if 20 ≤ q then (1, ["⚠ Limited board diversity (" ++ pyStr v ++ "%)"])
  else (0.5, ["⚠ Very limited board diversity (" ++ pyStr v ++ "%)"])

/-- scoring.py:124-137 — board diversity. -/
def boardDivAward (v : PyVal) : Except PyErr Award :=
  posGuarded (boardDivTier v) v

/-- The safety tier chain (scoring.py:142-153): lower is better, and any
present numeric value lands in some tier. -/
def safetyTier (v : PyVal) (q : ℚ) : Award :=
  if q < 1 then (2, ["✓ Excellent safety record (" ++ pyStr v ++ " incidents)"])
  else if q < 2 then (1.5, ["○ Good safety record (" ++ pyStr v ++ " incidents)"])
  else if q < 3 then (1, ["⚠ Moderate safety record (" ++ pyStr v ++ " incidents)"])
  else (0.5, ["⚠ Safety improvements needed (" ++ pyStr v ++ " incidents)"])

/-- scoring.py:140-153 — safety incident rate: guarded only by
`safety_rate is not None`, so a present zero falls in the best tier. -/
def safetyAward (v : PyVal) : Except PyErr Award :=
  presGuarded (safetyTier v) v

/-- The employee-training tier chain (scoring.py:158-166). -/
def trainingTier (v : PyVal) (q : ℚ) : Award :=
  if 40 ≤ q then (1, ["✓ Strong employee development program (" ++ pyStr v ++ " hrs)"])
  else if 20 ≤ q then (0.7, ["○ Good employee development (" ++ pyStr v ++ " hrs)"])
  else (0.4, ["⚠ Limited employee development (" ++ pyStr v ++ " hrs)"])

/-- scoring.py:156-166 — employee training hours. -/
def trainingAward (v : PyVal) : Except PyErr Award :=
  posGuarded (trainingTier v) v

/-- The uncapped social sum and rationale list (scoring.py:87-166),
sub-criteria in source order with Python's error priority. -/
def socTotal (m : Dict) : Except PyErr Award :=
  match workforceAward (dictGet m "women_in_workforce_percentage"),
        leadershipAward (dictGet m "women_in_leadership_percentage"),
        boardDivAward (dictGet m "board_diversity_percentage"),
        safetyAward (dictGet m "safety_incident_rate"),
        trainingAward (dictGet m "employee_training_hours") with
  | .ok a1, .ok a2, .ok a3, .ok a4, .ok a5 =>
    .ok (a1.1 + a2.1 + a3.1 + a4.1 + a5.1, a1.2 ++ a2.2 ++ a3.2 ++ a4.2 ++ a5.2)
  | .error e, _, _, _, _ => .error e
  | _, .error e, _, _, _ => .error e
  | _, _, .error e, _, _ => .error e
  | _, _, _, .error e, _ => .error e
  | _, _, _, _, .error e => .error e

/-- Fallback rationale of the social scorer (scoring.py:174). -/
def socFallback : String := "⚠ Limited social data available"

/-- `ESGScorer.score_social` (scoring.py:85-175). -/
def score_social (v : PyVal) : Except PyErr ScoreResult :=
  match asDict v with
  | .error e => .error e
  | .ok m =>
    match socTotal m with
    | .error e => .error e
    | .ok a => .ok (finalizeScore socFallback a)

/-! ### Governance sub-criteria (scoring.py:184-236) -/

/-- The board-independence tier chain (scoring.py:186-194); the lowest
tier repeats the `> 0` test (`elif independent_pct > 0`). -/
def independentTier (v : PyVal) (q : ℚ) : Award :=
  if 75 ≤ q then (3, ["✓ Strong board independence (" ++ pyStr v ++ "%)"])
  else if 50 ≤ q then (2, ["○ Adequate board independence (" ++ pyStr v ++ "%)"])
  else if 0 < q then (1, ["⚠ Limited board independence (" ++ pyStr v ++ "%)"])
  else (0, [])

/-- scoring.py:184-194 — board independence. -/
def independentAward (v : PyVal) : Except PyErr Award :=
  posGuarded (independentTier v) v

/-- scoring.py:197-202 — ESG committee: Python identity tests
`is True` / `is False`, so only the two actual bool objects score; any
other value (truthy or not) adds nothing. -/
def esgAward (v : PyVal) : Award :=
  match v with
  | .vBool true => (2, ["✓ Dedicated ESG committee exists"])
  | .vBool false => (0.5, ["⚠ No dedicated ESG committee"])
  | _ => (0, [])

/-- The board-size tier chain (scoring.py:207-212): 1 point inside
[8, 12], else (`elif board_size > 0`) 0.5. -/
def boardSizeTier (v : PyVal) (q : ℚ) : Award :=
  if 8 ≤ q ∧ q ≤ 12 then (1, ["✓ Optimal board size (" ++ pyStr v ++ " directors)"])
  else if 0 < q then (0.5, ["○ Board size: " ++ pyStr v ++ " directors"])
  else (0, [])

/-- scoring.py:205-212 — board size, guarded by
`board_size is not None and board_size > 0`. -/
def boardSizeAward (v : PyVal) : Except PyErr Award :=
  posGuarded (boardSizeTier v) v

/-- scoring.py:215-231 — ethics reporting: any present value (None
excluded) earns the 2-point transparency base; `violations == 0` is
Python equality (False for any non-number, no error), after which
`violations < 5` may raise TypeError on a non-number. -/
def ethicsAward (v : PyVal) : Except PyErr Award :=
  if v.isNone then .ok (0, [])
  else
    let base : Award := (2, ["✓ Transparent ethics reporting"])
    if v.asNum = some 0 then
      .ok (base.1 + 2, base.2 ++ ["✓ No ethics violations reported"])
    else match v.asNum with
    | none => .error (PyErr.typeError "comparison of number with non-number")
    | some q =>
      if q < 5 then .ok (base.1 + 1.5, base.2 ++ ["○ Minimal violations (" ++ pyStr v ++ ")"])
      else if q < 10 then .ok (base.1 + 1, base.2 ++ ["⚠ Some violations reported (" ++ pyStr v ++ ")"])
      else .ok (base.1 + 0.5, base.2 ++ ["⚠ Multiple violations reported (" ++ pyStr v ++ ")"])

/-- scoring.py:234-236 — climate risk disclosure: truthiness only. -/
def climateAward (v : PyVal) : Award :=
  if v.truthy then (0.5, ["✓ Climate risk disclosure included"]) else (0, [])

/-- The uncapped governance sum and rationale list (scoring.py:179-236),
sub-criteria in source order with Python's error priority; the
ESG-committee and climate-disclosure blocks cannot raise. -/
def govTotal (m : Dict) : Except PyErr Award :=
  let a2 := esgAward (dictGet m "esg_committee_exists")
  let a5 := climateAward (dictGet m "climate_risk_disclosure")
  match independentAward (dictGet m "independent_directors_percentage"),
        boardSizeAward (dictGet m "board_size"),
        ethicsAward (dictGet m "ethics_violations_reported") with
  | .ok a1, .ok a3, .ok a4 =>
    .ok (a1.1 + a2.1 + a3.1 + a4.1 + a5.1, a1.2 ++ a2.2 ++ a3.2 ++ a4.2 ++ a5.2)
  | .error e, _, _ => .error e
  | _, .error e, _ => .error e
  | _, _, .error e => .error e

/-- Fallback rationale of the governance scorer (scoring.py:244). -/
def govFallback : String := "⚠ Limited governance data available"

/-- `ESGScorer.score_governance` (scoring.py:177-245). -/
def score_governance (v : PyVal) : Except PyErr ScoreResult :=
  match asDict v with
  | .error e => .error e
  | .ok m =>
    match govTotal m with
    | .error e => .error e
    | .ok a => .ok (finalizeScore govFallback a)

/-! ### Aggregation (scoring.py:6-12, 247-292) -/

/-- `self.weights['environmental']` (scoring.py:8-12). -/
def weight_environmental : ℚ := 0.40

/-- `self.weights['social']`. -/
def weight_social : ℚ := 0.30

/-- `self.weights['governance']`. -/
def weight_governance : ℚ := 0.30

/-- The rating chain of `calculate_overall_score` (scoring.py:263-277),
applied to the unrounded weighted overall: label and emoji. -/
def ratingOf (overall : ℚ) : String × String :=
  if 8 ≤ overall then ("Excellent", "🌟")
  else if 6.5 ≤ overall then ("Good", "✅")
  else if 5 ≤ overall then ("Fair", "⚠️")
  else if 3 ≤ overall then ("Needs Improvement", "⚠️")
  else ("Limited Data", "❓")

/-- The per-category breakdown string (scoring.py:288-290):
`"<score>/10 (<weight*100>% weight)"`. -/
def breakdownStr (score weight : ℚ) : String :=
  pyStr (PyVal.vNum score) ++ "/10 (" ++ pyStr (PyVal.vNum (weight * 100)) ++ "% weight)"

/-- Result of `calculate_overall_score` (scoring.py:279-292). -/
structure OverallScoreResult where
  overall_score : ℚ
  max_score : ℚ
  rating : String
  rating_emoji : String
  environmental : ScoreResult
  social : ScoreResult
  governance : ScoreResult
  breakdown : List (String × String)
deriving Repr, DecidableEq

/-- `ESGScorer.calculate_overall_score` (scoring.py:247-292): scores the
three category sub-mappings (`metrics.get(cat, {})`, so a missing
category scores as an empty mapping), combines them with the fixed
weights, rounds to two decimals, and rates the unrounded overall. -/
def calculate_overall_score (metrics : PyVal) : Except PyErr OverallScoreResult :=
  match asDict metrics with
  | .error e => .error e
  | .ok m =>
    match score_environmental (dictGetD m "environmental" (PyVal.vDict [])) with
    | .error e => .error e
    | .ok env =>
      match score_social (dictGetD m "social" (PyVal.vDict [])) with
      | .error e => .error e
      | .ok soc =>
        match score_governance (dictGetD m "governance" (PyVal.vDict [])) with
        | .error e => .error e
        | .ok gov =>
          let overall := env.score * weight_environmental +
            soc.score * weight_social + gov.score * weight_governance
          let r := ratingOf overall
          .ok { overall_score := pyRound2 overall
                max_score := 10
                rating := r.1
                rating_emoji := r.2
                environmental := env
                social := soc
                governance := gov
                breakdown :=
                  [ ("environmental", breakdownStr env.score weight_environmental)
                  , ("social", breakdownStr soc.score weight_social)
                  , ("governance", breakdownStr gov.score weight_governance) ] }

/-- "Numeric or absent": the value is None (or a missing key) or carries
a numeric content, so the guard comparisons of the tiered sub-criteria
cannot raise.  Every leaf of a well-typed MetricsRecord numeric field
satisfies this. -/
def comparable (v : PyVal) : Bool := v.isNone || v.asNum.isSome

/-- The points of a fallible sub-criterion, defaulting a raised error to
zero; used only to state monotonicity of tier points. -/
def awardPoints (e : Except PyErr Award) : ℚ :=
  match e with
  | .ok a => a.1
  | .error _ => 0

/-- The recognized numeric-field values of an environmental sub-mapping
are numeric or absent (spec §3; the other environmental fields are used
by truthiness only and can never raise). -/
def envCatOk (m : Dict) : Bool :=
  comparable (dictGet m "renewable_energy_percentage") &&
  comparable (dictGet m "waste_recycled_percentage")

/-- The recognized numeric-field values of a social sub-mapping are
numeric or absent (spec §3). -/
def socCatOk (m : Dict) : Bool :=
  comparable (dictGet m "women_in_workforce_percentage") &&
  comparable (dictGet m "women_in_leadership_percentage") &&
  comparable (dictGet m "board_diversity_percentage") &&
  comparable (dictGet m "safety_incident_rate") &&
  comparable (dictGet m "employee_training_hours")

/-- The recognized numeric-field values of a governance sub-mapping are
numeric or absent (spec §3; `esg_committee_exists` and
`climate_risk_disclosure` are used by identity/truthiness only). -/
def govCatOk (m : Dict) : Bool :=
  comparable (dictGet m "independent_directors_percentage") &&
  comparable (dictGet m "board_size") &&
  comparable (dictGet m "ethics_violations_reported")

/-- A category slot holds a mapping whose recognized fields pass `c`. -/
def catOk (c : Dict → Bool) : PyVal → Bool
  | PyVal.vDict m => c m
  | _ => false

/-- A syntactically valid MetricsRecord (spec §3): a mapping whose three
category slots (defaulted to empty mappings when missing, as
`metrics.get(cat, {})` does) are mappings with well-typed recognized
fields.  Absent and None-valued leaves are always allowed. -/
def validRecord : PyVal → Bool
  | PyVal.vDict d =>
    catOk envCatOk (dictGetD d "environmental" (PyVal.vDict [])) &&
    catOk socCatOk (dictGetD d "social" (PyVal.vDict [])) &&
    catOk govCatOk (dictGetD d "governance" (PyVal.vDict []))
  | _ => false

/-- An environmental sub-mapping on which every sub-criterion awards its
maximum: the uncapped sum reaches the true maximum 8.0. -/
def bestEnvInput : Dict :=
  [ ("scope_1_emissions", PyVal.vNum 1)
  , ("scope_2_emissions", PyVal.vNum 1)
  , ("scope_3_emissions", PyVal.vNum 1)
  , ("renewable_energy_percentage", PyVal.vNum 80)
  , ("waste_recycled_percentage", PyVal.vNum 80)
  , ("water_usage", PyVal.vNum 1)
  , ("energy_efficiency", PyVal.vNum 1) ]

/-- The result of scoring a record with no data at all (the empty
mapping): every category falls back, the overall score is 0 and the
rating is the bottom band. -/
def emptyOverall : OverallScoreResult :=
  { overall_score := 0
    max_score := 10
    rating := "Limited Data"
    rating_emoji := "❓"
    environmental := { score := 0, max_score := 10, percentage := 0, details := [envFallback] }
    social := { score := 0, max_score := 10, percentage := 0, details := [socFallback] }
    governance := { score := 0, max_score := 10, percentage := 0, details := [govFallback] }
    breakdown :=
      [ ("environmental", "0/10 (40% weight)")
      , ("social", "0/10 (30% weight)")
      , ("governance", "0/10 (30% weight)") ] }

/-! ## Rounding bounds -/

theorem ratFloor_eq_floor (x : ℚ) : ratFloor x = ⌊x⌋ := Rat.floor_def.symm

theorem le_roundHalfEven {b : ℤ} {x : ℚ} (h : (b : ℚ) ≤ x) : b ≤ roundHalfEven x := by
  have hf : b ≤ ratFloor x := by
    rw [ratFloor_eq_floor]; exact Int.le_floor.mpr h
  unfold roundHalfEven
  dsimp only
  split_ifs <;> omega

theorem roundHalfEven_le {b : ℤ} {x : ℚ} (h : x ≤ (b : ℚ)) : roundHalfEven x ≤ b := by
  have hfx : (ratFloor x : ℚ) ≤ x := by rw [ratFloor_eq_floor]; exact Int.floor_le x
  have hfb : ratFloor x ≤ b := by
    rw [ratFloor_eq_floor]
    exact Int.le_of_lt_add_one (lt_of_le_of_lt (Int.floor_le_floor h) (by simp [Int.lt_add_one_iff]))
  unfold roundHalfEven
  dsimp only
  split_ifs with h1 h2 h3
  · exact hfb
  · -- x - floor x > 1/2, so floor x < b strictly
    have : (ratFloor x : ℚ) < x := by linarith
    have hlt : ratFloor x < b := by
      rcases lt_or_eq_of_le hfb with hlt | heq
      · exact hlt
      · exfalso
        have hx2 : x - (ratFloor x : ℚ) > 1/2 := by linarith
        rw [heq] at hx2
        have : x ≤ (ratFloor x : ℚ) := by rw [heq]; exact h
        linarith [hx2, this, heq ▸ hfx]
    omega
  · exact hfb
  · have hlt : ratFloor x < b := by
      rcases lt_or_eq_of_le hfb with hlt | heq
      · exact hlt
      · exfalso
        have hx2 : x - (ratFloor x : ℚ) ≥ 1/2 := by linarith
        rw [heq] at hx2
        have : x ≤ (b : ℚ) := h
        linarith
    omega

theorem pyRound2_nonneg {x : ℚ} (h : 0 ≤ x) : 0 ≤ pyRound2 x := by
  unfold pyRound2
  have : (0 : ℤ) ≤ roundHalfEven (x * 100) := le_roundHalfEven (by push_cast; linarith)
  positivity

theorem pyRound2_le_ten {x : ℚ} (h : x ≤ 10) : pyRound2 x ≤ 10 := by
  unfold pyRound2
  have : roundHalfEven (x * 100) ≤ (1000 : ℤ) := roundHalfEven_le (by push_cast; linarith)
  have hc : (roundHalfEven (x * 100) : ℚ) ≤ 1000 := by exact_mod_cast this
  linarith

/-! ## Generic lemmas about the guard combinators -/

theorem truthyAward_vNone (p : ℚ) (l : String) : truthyAward p l PyVal.vNone = (0, []) := rfl

theorem truthyAward_fst_bounds (p : ℚ) (l : String) (v : PyVal) (hp : 0 ≤ p) :
    0 ≤ (truthyAward p l v).1 ∧ (truthyAward p l v).1 ≤ p := by
  unfold truthyAward
  split_ifs <;> simp [hp]

theorem posGuarded_vNone (t : ℚ → Award) : posGuarded t PyVal.vNone = .ok (0, []) := rfl

theorem presGuarded_vNone (t : ℚ → Award) : presGuarded t PyVal.vNone = .ok (0, []) := rfl

theorem posGuarded_vNum (t : ℚ → Award) (q : ℚ) :
    posGuarded t (PyVal.vNum q) = .ok (if 0 < q then t q else (0, [])) := by
  unfold posGuarded
  simp only [PyVal.isNone, PyVal.asNum, Bool.false_eq_true, if_false]
  split_ifs <;> rfl

theorem presGuarded_vNum (t : ℚ → Award) (q : ℚ) :
    presGuarded t (PyVal.vNum q) = .ok (t q) := rfl

theorem posGuarded_ok_cases {t : ℚ → Award} {v : PyVal} {a : Award}
    (h : posGuarded t v = .ok a) : a = (0, []) ∨ ∃ q, 0 < q ∧ a = t q := by
  unfold posGuarded at h
  split_ifs at h with h1
  · left; cases h; rfl
  · rcases hn : v.asNum with _ | q <;> rw [hn] at h <;> dsimp only at h
    · cases h
    · split_ifs at h with h2
      · right; exact ⟨q, h2, by cases h; rfl⟩
      · left; cases h; rfl

theorem presGuarded_ok_cases {t : ℚ → Award} {v : PyVal} {a : Award}
    (h : presGuarded t v = .ok a) : a = (0, []) ∨ ∃ q, a = t q := by
  unfold presGuarded at h
  split_ifs at h with h1
  · left; cases h; rfl
  · rcases hn : v.asNum with _ | q <;> rw [hn] at h <;> dsimp only at h
    · cases h
    · right; exact ⟨q, by cases h; rfl⟩

theorem posGuarded_ok_of_comparable {t : ℚ → Award} {v : PyVal}
    (h : comparable v = true) : ∃ a, posGuarded t v = .ok a := by
  cases v with
  | vNone => exact ⟨_, rfl⟩
  | vBool b =>
    unfold posGuarded
    simp only [PyVal.isNone, PyVal.asNum, Bool.false_eq_true, if_false]
    split_ifs <;> exact ⟨_, rfl⟩
  | vNum q =>
    unfold posGuarded
    simp only [PyVal.isNone, PyVal.asNum, Bool.false_eq_true, if_false]
    split_ifs <;> exact ⟨_, rfl⟩
  | vStr s => simp [comparable, PyVal.isNone, PyVal.asNum] at h
  | vDict es => simp [comparable, PyVal.isNone, PyVal.asNum] at h

theorem presGuarded_ok_of_comparable {t : ℚ → Award} {v : PyVal}
    (h : comparable v = true) : ∃ a, presGuarded t v = .ok a := by
  cases v with
  | vNone => exact ⟨_, rfl⟩
  | vBool b => exact ⟨_, rfl⟩
  | vNum q => exact ⟨_, rfl⟩
  | vStr s => simp [comparable, PyVal.isNone, PyVal.asNum] at h
  | vDict es => simp [comparable, PyVal.isNone, PyVal.asNum] at h

/-! ## Per-award lemmas: absent values, bounds, totality -/

theorem scope1Award_vNone : scope1Award PyVal.vNone = (0, []) := rfl

theorem scope2Award_vNone : scope2Award PyVal.vNone = (0, []) := rfl

theorem scope3Award_vNone : scope3Award PyVal.vNone = (0, []) := rfl

theorem waterAward_vNone : waterAward PyVal.vNone = (0, []) := rfl

theorem energyAward_vNone : energyAward PyVal.vNone = (0, []) := rfl

theorem esgAward_vNone : esgAward PyVal.vNone = (0, []) := rfl

theorem climateAward_vNone : climateAward PyVal.vNone = (0, []) := rfl

theorem ethicsAward_vNone : ethicsAward PyVal.vNone = .ok (0, []) := rfl

theorem renewableTier_bounds (v : PyVal) (q : ℚ) :
    0 ≤ (renewableTier v q).1 ∧ (renewableTier v q).1 ≤ 3 := by
  unfold renewableTier; split_ifs <;> norm_num

theorem wasteTier_bounds (v : PyVal) (q : ℚ) :
    0 ≤ (wasteTier v q).1 ∧ (wasteTier v q).1 ≤ 1 := by
  unfold wasteTier; split_ifs <;> norm_num

theorem workforceTier_bounds (v : PyVal) (q : ℚ) :
    0 ≤ (workforceTier v q).1 ∧ (workforceTier v q).1 ≤ 2 := by
  unfold workforceTier; split_ifs <;> norm_num

theorem leadershipTier_bounds (v : PyVal) (q : ℚ) :
    0 ≤ (leadershipTier v q).1 ∧ (leadershipTier v q).1 ≤ 3 := by
  unfold leadershipTier; split_ifs <;> norm_num

theorem boardDivTier_bounds (v : PyVal) (q : ℚ) :
    0 ≤ (boardDivTier v q).1 ∧ (boardDivTier v q).1 ≤ 2 := by
  unfold boardDivTier; split_ifs <;> norm_num

theorem safetyTier_bounds (v : PyVal) (q : ℚ) :
    0 ≤ (safetyTier v q).1 ∧ (safetyTier v q).1 ≤ 2 := by
  unfold safetyTier; split_ifs <;> norm_num

theorem trainingTier_bounds (v : PyVal) (q : ℚ) :
    0 ≤ (trainingTier v q).1 ∧ (trainingTier v q).1 ≤ 1 := by
  unfold trainingTier; split_ifs <;> norm_num

theorem independentTier_bounds (v : PyVal) (q : ℚ) :
    0 ≤ (independentTier v q).1 ∧ (independentTier v q).1 ≤ 3 := by
  unfold independentTier; split_ifs <;> norm_num

theorem boardSizeTier_bounds (v : PyVal) (q : ℚ) :
    0 ≤ (boardSizeTier v q).1 ∧ (boardSizeTier v q).1 ≤ 1 := by
  unfold boardSizeTier; split_ifs <;> norm_num

theorem esgAward_bounds (v : PyVal) : 0 ≤ (esgAward v).1 ∧ (esgAward v).1 ≤ 2 := by
  unfold esgAward
  rcases v with _ | b | q | s | es
  · norm_num
  · rcases b <;> norm_num
  · norm_num
  · norm_num
  · norm_num

theorem climateAward_bounds (v : PyVal) :
    0 ≤ (climateAward v).1 ∧ (climateAward v).1 ≤ 0.5 := by
  unfold climateAward; split_ifs <;> norm_num

theorem posGuarded_ok_tier_bounds {t : ℚ → Award} {v : PyVal} {a : Award} {c : ℚ}
    (hc : 0 ≤ c) (ht : ∀ q, 0 ≤ (t q).1 ∧ (t q).1 ≤ c)
    (h : posGuarded t v = .ok a) : 0 ≤ a.1 ∧ a.1 ≤ c := by
  rcases posGuarded_ok_cases h with rfl | ⟨q, _, rfl⟩
  · exact ⟨le_refl 0, hc⟩
  · exact ht q

theorem presGuarded_ok_tier_bounds {t : ℚ → Award} {v : PyVal} {a : Award} {c : ℚ}
    (hc : 0 ≤ c) (ht : ∀ q, 0 ≤ (t q).1 ∧ (t q).1 ≤ c)
    (h : presGuarded t v = .ok a) : 0 ≤ a.1 ∧ a.1 ≤ c := by
  rcases presGuarded_ok_cases h with rfl | ⟨q, rfl⟩
  · exact ⟨le_refl 0, hc⟩
  · exact ht q

theorem ethicsAward_ok_bounds {v : PyVal} {a : Award}
    (h : ethicsAward v = .ok a) : 0 ≤ a.1 ∧ a.1 ≤ 4 := by
  unfold ethicsAward at h
  split_ifs at h with h1 h2
  · cases h; norm_num
  · cases h; norm_num
  · rcases hn : v.asNum with _ | q <;> rw [hn] at h <;> dsimp only at h
    · cases h
    · split_ifs at h <;> cases h <;> norm_num

theorem ethicsAward_ok_of_comparable {v : PyVal}
    (h : comparable v = true) : ∃ a, ethicsAward v = .ok a := by
  cases v with
  | vNone => exact ⟨_, rfl⟩
  | vBool b =>
    unfold ethicsAward
    simp only [PyVal.isNone, PyVal.asNum, Bool.false_eq_true, if_false]
    split_ifs <;> exact ⟨_, rfl⟩
  | vNum q =>
    unfold ethicsAward
    simp only [PyVal.isNone, PyVal.asNum, Bool.false_eq_true, if_false]
    split_ifs <;> exact ⟨_, rfl⟩
  | vStr s => simp [comparable, PyVal.isNone, PyVal.asNum] at h
  | vDict es => simp [comparable, PyVal.isNone, PyVal.asNum] at h

theorem scope1Award_bounds (v : PyVal) :
    0 ≤ (scope1Award v).1 ∧ (scope1Award v).1 ≤ 1.5 :=
  truthyAward_fst_bounds _ _ _ (by norm_num)

theorem scope2Award_bounds (v : PyVal) :
    0 ≤ (scope2Award v).1 ∧ (scope2Award v).1 ≤ 0.5 :=
  truthyAward_fst_bounds _ _ _ (by norm_num)

theorem scope3Award_bounds (v : PyVal) :
    0 ≤ (scope3Award v).1 ∧ (scope3Award v).1 ≤ 1 :=
  truthyAward_fst_bounds _ _ _ (by norm_num)

theorem waterAward_bounds (v : PyVal) :
    0 ≤ (waterAward v).1 ∧ (waterAward v).1 ≤ 0.5 :=
  truthyAward_fst_bounds _ _ _ (by norm_num)

theorem energyAward_bounds (v : PyVal) :
    0 ≤ (energyAward v).1 ∧ (energyAward v).1 ≤ 0.5 :=
  truthyAward_fst_bounds _ _ _ (by norm_num)

theorem renewableAward_vNone : renewableAward PyVal.vNone = .ok (0, []) := rfl

theorem wasteAward_vNone : wasteAward PyVal.vNone = .ok (0, []) := rfl

theorem workforceAward_vNone : workforceAward PyVal.vNone = .ok (0, []) := rfl

theorem leadershipAward_vNone : leadershipAward PyVal.vNone = .ok (0, []) := rfl

theorem boardDivAward_vNone : boardDivAward PyVal.vNone = .ok (0, []) := rfl

theorem safetyAward_vNone : safetyAward PyVal.vNone = .ok (0, []) := rfl

theorem trainingAward_vNone : trainingAward PyVal.vNone = .ok (0, []) := rfl

theorem independentAward_vNone : independentAward PyVal.vNone = .ok (0, []) := rfl

theorem boardSizeAward_vNone : boardSizeAward PyVal.vNone = .ok (0, []) := rfl

theorem renewableAward_ok_bounds {v : PyVal} {a : Award}
    (h : renewableAward v = .ok a) : 0 ≤ a.1 ∧ a.1 ≤ 3 :=
  posGuarded_ok_tier_bounds (by norm_num) (renewableTier_bounds v) h

theorem wasteAward_ok_bounds {v : PyVal} {a : Award}
    (h : wasteAward v = .ok a) : 0 ≤ a.1 ∧ a.1 ≤ 1 :=
  posGuarded_ok_tier_bounds (by norm_num) (wasteTier_bounds v) h

theorem workforceAward_ok_bounds {v : PyVal} {a : Award}
    (h : workforceAward v = .ok a) : 0 ≤ a.1 ∧ a.1 ≤ 2 :=
  posGuarded_ok_tier_bounds (by norm_num) (workforceTier_bounds v) h

theorem leadershipAward_ok_bounds {v : PyVal} {a : Award}
    (h : leadershipAward v = .ok a) : 0 ≤ a.1 ∧ a.1 ≤ 3 :=
  posGuarded_ok_tier_bounds (by norm_num) (leadershipTier_bounds v) h

theorem boardDivAward_ok_bounds {v : PyVal} {a : Award}
    (h : boardDivAward v = .ok a) : 0 ≤ a.1 ∧ a.1 ≤ 2 :=
  posGuarded_ok_tier_bounds (by norm_num) (boardDivTier_bounds v) h

theorem safetyAward_ok_bounds {v : PyVal} {a : Award}
    (h : safetyAward v = .ok a) : 0 ≤ a.1 ∧ a.1 ≤ 2 :=
  presGuarded_ok_tier_bounds (by norm_num) (safetyTier_bounds v) h

theorem trainingAward_ok_bounds {v : PyVal} {a : Award}
    (h : trainingAward v = .ok a) : 0 ≤ a.1 ∧ a.1 ≤ 1 :=
  posGuarded_ok_tier_bounds (by norm_num) (trainingTier_bounds v) h

theorem independentAward_ok_bounds {v : PyVal} {a : Award}
    (h : independentAward v = .ok a) : 0 ≤ a.1 ∧ a.1 ≤ 3 :=
  posGuarded_ok_tier_bounds (by norm_num) (independentTier_bounds v) h

theorem boardSizeAward_ok_bounds {v : PyVal} {a : Award}
    (h : boardSizeAward v = .ok a) : 0 ≤ a.1 ∧ a.1 ≤ 1 :=
  posGuarded_ok_tier_bounds (by norm_num) (boardSizeTier_bounds v) h

theorem renewableAward_ok_of_comparable {v : PyVal} (h : comparable v = true) :
    ∃ a, renewableAward v = .ok a :=
  @posGuarded_ok_of_comparable (renewableTier v) v h

theorem wasteAward_ok_of_comparable {v : PyVal} (h : comparable v = true) :
    ∃ a, wasteAward v = .ok a :=
  @posGuarded_ok_of_comparable (wasteTier v) v h

theorem workforceAward_ok_of_comparable {v : PyVal} (h : comparable v = true) :
    ∃ a, workforceAward v = .ok a :=
  @posGuarded_ok_of_comparable (workforceTier v) v h

theorem leadershipAward_ok_of_comparable {v : PyVal} (h : comparable v = true) :
    ∃ a, leadershipAward v = .ok a :=
  @posGuarded_ok_of_comparable (leadershipTier v) v h

theorem boardDivAward_ok_of_comparable {v : PyVal} (h : comparable v = true) :
    ∃ a, boardDivAward v = .ok a :=
  @posGuarded_ok_of_comparable (boardDivTier v) v h

theorem safetyAward_ok_of_comparable {v : PyVal} (h : comparable v = true) :
    ∃ a, safetyAward v = .ok a :=
  @presGuarded_ok_of_comparable (safetyTier v) v h

theorem trainingAward_ok_of_comparable {v : PyVal} (h : comparable v = true) :
    ∃ a, trainingAward v = .ok a :=
  @posGuarded_ok_of_comparable (trainingTier v) v h

theorem independentAward_ok_of_comparable {v : PyVal} (h : comparable v = true) :
    ∃ a, independentAward v = .ok a :=
  @posGuarded_ok_of_comparable (independentTier v) v h

theorem boardSizeAward_ok_of_comparable {v : PyVal} (h : comparable v = true) :
    ∃ a, boardSizeAward v = .ok a :=
  @posGuarded_ok_of_comparable (boardSizeTier v) v h

/-! ## Category-total lemmas -/

theorem envTotal_ok_bounds {m : Dict} {a : Award} (h : envTotal m = .ok a) :
    0 ≤ a.1 ∧ a.1 ≤ 8 := by
  unfold envTotal at h
  rcases h4 : renewableAward (dictGet m "renewable_energy_percentage") with e4 | a4 <;>
    rw [h4] at h
  · exact absurd h (by simp)
  rcases h5 : wasteAward (dictGet m "waste_recycled_percentage") with e5 | a5 <;>
    rw [h5] at h
  · exact absurd h (by simp)
  dsimp only at h
  injection h with h
  subst h
  obtain ⟨b1l, b1r⟩ := scope1Award_bounds (dictGet m "scope_1_emissions")
  obtain ⟨b2l, b2r⟩ := scope2Award_bounds (dictGet m "scope_2_emissions")
  obtain ⟨b3l, b3r⟩ := scope3Award_bounds (dictGet m "scope_3_emissions")
  obtain ⟨b4l, b4r⟩ := renewableAward_ok_bounds h4
  obtain ⟨b5l, b5r⟩ := wasteAward_ok_bounds h5
  obtain ⟨b6l, b6r⟩ := waterAward_bounds (dictGet m "water_usage")
  obtain ⟨b7l, b7r⟩ := energyAward_bounds (dictGet m "energy_efficiency")
  constructor
  · dsimp only; linarith
  · dsimp only; linarith

theorem socTotal_ok_bounds {m : Dict} {a : Award} (h : socTotal m = .ok a) :
    0 ≤ a.1 ∧ a.1 ≤ 10 := by
  unfold socTotal at h
  rcases h1 : workforceAward (dictGet m "women_in_workforce_percentage") with e1 | a1 <;>
    rw [h1] at h
  · exact absurd h (by simp)
  rcases h2 : leadershipAward (dictGet m "women_in_leadership_percentage") with e2 | a2 <;>
    rw [h2] at h
  · exact absurd h (by simp)
  rcases h3 : boardDivAward (dictGet m "board_diversity_percentage") with e3 | a3 <;>
    rw [h3] at h
  · exact absurd h (by simp)
  rcases h4 : safetyAward (dictGet m "safety_incident_rate") with e4 | a4 <;>
    rw [h4] at h
  · exact absurd h (by simp)
  rcases h5 : trainingAward (dictGet m "employee_training_hours") with e5 | a5 <;>
    rw [h5] at h
  · exact absurd h (by simp)
  dsimp only at h
  injection h with h
  subst h
  obtain ⟨b1l, b1r⟩ := workforceAward_ok_bounds h1
  obtain ⟨b2l, b2r⟩ := leadershipAward_ok_bounds h2
  obtain ⟨b3l, b3r⟩ := boardDivAward_ok_bounds h3
  obtain ⟨b4l, b4r⟩ := safetyAward_ok_bounds h4
  obtain ⟨b5l, b5r⟩ := trainingAward_ok_bounds h5
  constructor
  · dsimp only; linarith
  · dsimp only; linarith

theorem govTotal_ok_bounds {m : Dict} {a : Award} (h : govTotal m = .ok a) :
    0 ≤ a.1 ∧ a.1 ≤ 10.5 := by
  unfold govTotal at h
  rcases h1 : independentAward (dictGet m "independent_directors_percentage") with e1 | a1 <;>
    rw [h1] at h
  · exact absurd h (by simp)
  rcases h3 : boardSizeAward (dictGet m "board_size") with e3 | a3 <;>
    rw [h3] at h
  · exact absurd h (by simp)
  rcases h4 : ethicsAward (dictGet m "ethics_violations_reported") with e4 | a4 <;>
    rw [h4] at h
  · exact absurd h (by simp)
  dsimp only at h
  injection h with h
  subst h
  obtain ⟨b1l, b1r⟩ := independentAward_ok_bounds h1
  obtain ⟨b2l, b2r⟩ := esgAward_bounds (dictGet m "esg_committee_exists")
  obtain ⟨b3l, b3r⟩ := boardSizeAward_ok_bounds h3
  obtain ⟨b4l, b4r⟩ := ethicsAward_ok_bounds h4
  obtain ⟨b5l, b5r⟩ := climateAward_bounds (dictGet m "climate_risk_disclosure")
  constructor
  · dsimp only; linarith
  · dsimp only; linarith

theorem envTotal_ok_of {m : Dict}
    (h4 : comparable (dictGet m "renewable_energy_percentage") = true)
    (h5 : comparable (dictGet m "waste_recycled_percentage") = true) :
    ∃ a, envTotal m = .ok a := by
  obtain ⟨a4, hr⟩ := renewableAward_ok_of_comparable h4
  obtain ⟨a5, hw⟩ := wasteAward_ok_of_comparable h5
  unfold envTotal
  rw [hr, hw]
  exact ⟨_, rfl⟩

theorem socTotal_ok_of {m : Dict}
    (h1 : comparable (dictGet m "women_in_workforce_percentage") = true)
    (h2 : comparable (dictGet m "women_in_leadership_percentage") = true)
    (h3 : comparable (dictGet m "board_diversity_percentage") = true)
    (h4 : comparable (dictGet m "safety_incident_rate") = true)
    (h5 : comparable (dictGet m "employee_training_hours") = true) :
    ∃ a, socTotal m = .ok a := by
  obtain ⟨a1, e1⟩ := workforceAward_ok_of_comparable h1
  obtain ⟨a2, e2⟩ := leadershipAward_ok_of_comparable h2
  obtain ⟨a3, e3⟩ := boardDivAward_ok_of_comparable h3
  obtain ⟨a4, e4⟩ := safetyAward_ok_of_comparable h4
  obtain ⟨a5, e5⟩ := trainingAward_ok_of_comparable h5
  unfold socTotal
  rw [e1, e2, e3, e4, e5]
  exact ⟨_, rfl⟩

theorem govTotal_ok_of {m : Dict}
    (h1 : comparable (dictGet m "independent_directors_percentage") = true)
    (h3 : comparable (dictGet m "board_size") = true)
    (h4 : comparable (dictGet m "ethics_violations_reported") = true) :
    ∃ a, govTotal m = .ok a := by
  obtain ⟨a1, e1⟩ := independentAward_ok_of_comparable h1
  obtain ⟨a3, e3⟩ := boardSizeAward_ok_of_comparable h3
  obtain ⟨a4, e4⟩ := ethicsAward_ok_of_comparable h4
  unfold govTotal
  rw [e1, e3, e4]
  exact ⟨_, rfl⟩

theorem envTotal_absent {m : Dict}
    (h1 : dictGet m "scope_1_emissions" = PyVal.vNone)
    (h2 : dictGet m "scope_2_emissions" = PyVal.vNone)
    (h3 : dictGet m "scope_3_emissions" = PyVal.vNone)
    (h4 : dictGet m "renewable_energy_percentage" = PyVal.vNone)
    (h5 : dictGet m "waste_recycled_percentage" = PyVal.vNone)
    (h6 : dictGet m "water_usage" = PyVal.vNone)
    (h7 : dictGet m "energy_efficiency" = PyVal.vNone) :
    envTotal m = .ok (0, []) := by
  unfold envTotal
  rw [h1, h2, h3, h4, h5, h6, h7, renewableAward_vNone, wasteAward_vNone]
  simp [scope1Award_vNone, scope2Award_vNone, scope3Award_vNone, waterAward_vNone,
    energyAward_vNone]

theorem socTotal_absent {m : Dict}
    (h1 : dictGet m "women_in_workforce_percentage" = PyVal.vNone)
    (h2 : dictGet m "women_in_leadership_percentage" = PyVal.vNone)
    (h3 : dictGet m "board_diversity_percentage" = PyVal.vNone)
    (h4 : dictGet m "safety_incident_rate" = PyVal.vNone)
    (h5 : dictGet m "employee_training_hours" = PyVal.vNone) :
    socTotal m = .ok (0, []) := by
  unfold socTotal
  rw [h1, h2, h3, h4, h5, workforceAward_vNone, leadershipAward_vNone,
    boardDivAward_vNone, safetyAward_vNone, trainingAward_vNone]
  simp

theorem govTotal_absent {m : Dict}
    (h1 : dictGet m "independent_directors_percentage" = PyVal.vNone)
    (h2 : dictGet m "esg_committee_exists" = PyVal.vNone)
    (h3 : dictGet m "board_size" = PyVal.vNone)
    (h4 : dictGet m "ethics_violations_reported" = PyVal.vNone)
    (h5 : dictGet m "climate_risk_disclosure" = PyVal.vNone) :
    govTotal m = .ok (0, []) := by
  unfold govTotal
  rw [h1, h2, h3, h4, h5, independentAward_vNone, boardSizeAward_vNone, ethicsAward_vNone]
  simp [esgAward_vNone, climateAward_vNone]

/-! ## Scorer-level lemmas -/

theorem finalizeScore_score_bounds {f : String} {a : Award} (h : 0 ≤ a.1) :
    0 ≤ (finalizeScore f a).score ∧ (finalizeScore f a).score ≤ 10 := by
  unfold finalizeScore
  constructor
  · exact pyRound2_nonneg (le_min h (by norm_num))
  · exact pyRound2_le_ten (min_le_right _ _)

theorem finalizeScore_zero (f : String) :
    finalizeScore f (0, []) =
      { score := 0, max_score := 10, percentage := 0, details := [f] } := by
  unfold finalizeScore
  norm_num [pyRound2, pyRound1, roundHalfEven, ratFloor]

theorem score_environmental_vDict {m : Dict} {a : Award} (h : envTotal m = .ok a) :
    score_environmental (PyVal.vDict m) = .ok (finalizeScore envFallback a) := by
  unfold score_environmental
  dsimp only [asDict]
  rw [h]

theorem score_social_vDict {m : Dict} {a : Award} (h : socTotal m = .ok a) :
    score_social (PyVal.vDict m) = .ok (finalizeScore socFallback a) := by
  unfold score_social
  dsimp only [asDict]
  rw [h]

theorem score_governance_vDict {m : Dict} {a : Award} (h : govTotal m = .ok a) :
    score_governance (PyVal.vDict m) = .ok (finalizeScore govFallback a) := by
  unfold score_governance
  dsimp only [asDict]
  rw [h]

theorem score_environmental_nonDict {v : PyVal} (h : ∀ es, v ≠ PyVal.vDict es) :
    score_environmental v = .error (PyErr.attributeError "object has no attribute get") := by
  cases v <;> first | rfl | exact absurd rfl (h _)

/-- The end-to-end environmental example of spec §8: scopes 1 and 2
reported, renewable at 78% — score 1.5+0.5+3.0 = 5.0, percentage 50.0. -/
theorem score_environmental_spec_example :
    score_environmental (PyVal.vDict
      [ ("scope_1_emissions", PyVal.vDict [("value", PyVal.vNum 200000)])
      , ("scope_2_emissions", PyVal.vDict [("value", PyVal.vNum 150000)])
      , ("renewable_energy_percentage", PyVal.vNum 78) ]) =
    .ok { score := 5, max_score := 10, percentage := 50
          , details :=
            [ "✓ Reports Scope 1 emissions"
            , "✓ Reports Scope 2 emissions"
            , "✓ Excellent renewable energy usage (78%)" ] } := by
  simp only [score_environmental, asDict, envTotal, scope1Award, scope2Award,
    scope3Award, renewableAward, wasteAward, waterAward, energyAward, truthyAward,
    posGuarded, renewableTier, wasteTier, dictGet,
    PyVal.truthy, PyVal.isNone, PyVal.asNum, pyStr, finalizeScore, envFallback,
    String.reduceEq, reduceIte]
  norm_num [pyRound2, pyRound1, roundHalfEven, ratFloor]
  all_goals decide

theorem calculate_overall_ok_parts {m : Dict} {r : OverallScoreResult}
    (h : calculate_overall_score (PyVal.vDict m) = .ok r) :
    score_environmental (dictGetD m "environmental" (PyVal.vDict [])) = .ok r.environmental ∧
    score_social (dictGetD m "social" (PyVal.vDict [])) = .ok r.social ∧
    score_governance (dictGetD m "governance" (PyVal.vDict [])) = .ok r.governance ∧
    r.overall_score = pyRound2 (r.environmental.score * weight_environmental +
      r.social.score * weight_social + r.governance.score * weight_governance) ∧
    (r.rating, r.rating_emoji) = ratingOf (r.environmental.score * weight_environmental +
      r.social.score * weight_social + r.governance.score * weight_governance) := by
  unfold calculate_overall_score at h
  dsimp only [asDict] at h
  rcases he : score_environmental (dictGetD m "environmental" (PyVal.vDict [])) with e | env <;>
    rw [he] at h
  · exact absurd h (by simp)
  rcases hs : score_social (dictGetD m "social" (PyVal.vDict [])) with e | soc <;>
    rw [hs] at h
  · exact absurd h (by simp)
  rcases hg : score_governance (dictGetD m "governance" (PyVal.vDict [])) with e | gov <;>
    rw [hg] at h
  · exact absurd h (by simp)
  dsimp only at h
  injection h with h
  subst h
  exact ⟨rfl, rfl, rfl, rfl, rfl⟩

theorem score_environmental_ok_of_catOk {v : PyVal} (h : catOk envCatOk v = true) :
    ∃ r, score_environmental v = .ok r := by
  cases v with
  | vDict m =>
    have h2 : envCatOk m = true := h
    rw [envCatOk, Bool.and_eq_true] at h2
    obtain ⟨a, ha⟩ := envTotal_ok_of h2.1 h2.2
    exact ⟨_, score_environmental_vDict ha⟩
  | vNone => simp [catOk] at h
  | vBool b => simp [catOk] at h
  | vNum q => simp [catOk] at h
  | vStr s => simp [catOk] at h

theorem score_social_ok_of_catOk {v : PyVal} (h : catOk socCatOk v = true) :
    ∃ r, score_social v = .ok r := by
  cases v with
  | vDict m =>
    have h2 : socCatOk m = true := h
    rw [socCatOk] at h2
    simp only [Bool.and_eq_true] at h2
    obtain ⟨⟨⟨⟨c1, c2⟩, c3⟩, c4⟩, c5⟩ := h2
    obtain ⟨a, ha⟩ := socTotal_ok_of c1 c2 c3 c4 c5
    exact ⟨_, score_social_vDict ha⟩
  | vNone => simp [catOk] at h
  | vBool b => simp [catOk] at h
  | vNum q => simp [catOk] at h
  | vStr s => simp [catOk] at h

theorem score_governance_ok_of_catOk {v : PyVal} (h : catOk govCatOk v = true) :
    ∃ r, score_governance v = .ok r := by
  cases v with
  | vDict m =>
    have h2 : govCatOk m = true := h
    rw [govCatOk] at h2
    simp only [Bool.and_eq_true] at h2
    obtain ⟨⟨c1, c3⟩, c4⟩ := h2
    obtain ⟨a, ha⟩ := govTotal_ok_of c1 c3 c4
    exact ⟨_, score_governance_vDict ha⟩
  | vNone => simp [catOk] at h
  | vBool b => simp [catOk] at h
  | vNum q => simp [catOk] at h
  | vStr s => simp [catOk] at h

theorem calculate_overall_vDict {d : Dict} {re rs rg : ScoreResult}
    (hre : score_environmental (dictGetD d "environmental" (PyVal.vDict [])) = .ok re)
    (hrs : score_social (dictGetD d "social" (PyVal.vDict [])) = .ok rs)
    (hrg : score_governance (dictGetD d "governance" (PyVal.vDict [])) = .ok rg) :
    calculate_overall_score (PyVal.vDict d) = .ok
      { overall_score := pyRound2 (re.score * weight_environmental +
          rs.score * weight_social + rg.score * weight_governance)
        max_score := 10
        rating := (ratingOf (re.score * weight_environmental +
          rs.score * weight_social + rg.score * weight_governance)).1
        rating_emoji := (ratingOf (re.score * weight_environmental +
          rs.score * weight_social + rg.score * weight_governance)).2
        environmental := re
        social := rs
        governance := rg
        breakdown :=
          [ ("environmental", breakdownStr re.score weight_environmental)
          , ("social", breakdownStr rs.score weight_social)
          , ("governance", breakdownStr rg.score weight_governance) ] } := by
  unfold calculate_overall_score
  dsimp only [asDict]
  rw [hre, hrs, hrg]

theorem calculate_overall_ok_of_valid {v : PyVal} (h : validRecord v = true) :
    ∃ r, calculate_overall_score v = .ok r := by
  cases v with
  | vDict d =>
    have h2 : validRecord (PyVal.vDict d) = true := h
    rw [validRecord] at h2
    simp only [Bool.and_eq_true] at h2
    obtain ⟨⟨he, hs⟩, hg⟩ := h2
    obtain ⟨re, hre⟩ := score_environmental_ok_of_catOk he
    obtain ⟨rs, hrs⟩ := score_social_ok_of_catOk hs
    obtain ⟨rg, hrg⟩ := score_governance_ok_of_catOk hg
    exact ⟨_, calculate_overall_vDict hre hrs hrg⟩
  | vNone => simp [validRecord] at h
  | vBool b => simp [validRecord] at h
  | vNum q => simp [validRecord] at h
  | vStr s => simp [validRecord] at h

theorem score_social_nonDict {v : PyVal} (h : ∀ es, v ≠ PyVal.vDict es) :
    score_social v = .error (PyErr.attributeError "object has no attribute get") := by
  cases v <;> first | rfl | exact absurd rfl (h _)

theorem score_governance_nonDict {v : PyVal} (h : ∀ es, v ≠ PyVal.vDict es) :
    score_governance v = .error (PyErr.attributeError "object has no attribute get") := by
  cases v <;> first | rfl | exact absurd rfl (h _)

theorem score_environmental_ok_bounds {v : PyVal} {r : ScoreResult}
    (h : score_environmental v = .ok r) : 0 ≤ r.score ∧ r.score ≤ 10 := by
  unfold score_environmental at h
  rcases hv : asDict v with e | m <;> rw [hv] at h
  · exact absurd h (by simp)
  dsimp only at h
  rcases ht : envTotal m with e | a <;> rw [ht] at h
  · exact absurd h (by simp)
  dsimp only at h
  injection h with h
  subst h
  exact finalizeScore_score_bounds (envTotal_ok_bounds ht).1

theorem score_social_ok_bounds {v : PyVal} {r : ScoreResult}
    (h : score_social v = .ok r) : 0 ≤ r.score ∧ r.score ≤ 10 := by
  unfold score_social at h
  rcases hv : asDict v with e | m <;> rw [hv] at h
  · exact absurd h (by simp)
  dsimp only at h
  rcases ht : socTotal m with e | a <;> rw [ht] at h
  · exact absurd h (by simp)
  dsimp only at h
  injection h with h
  subst h
  exact finalizeScore_score_bounds (socTotal_ok_bounds ht).1

theorem score_governance_ok_bounds {v : PyVal} {r : ScoreResult}
    (h : score_governance v = .ok r) : 0 ≤ r.score ∧ r.score ≤ 10 := by
  unfold score_governance at h
  rcases hv : asDict v with e | m <;> rw [hv] at h
  · exact absurd h (by simp)
  dsimp only at h
  rcases ht : govTotal m with e | a <;> rw [ht] at h
  · exact absurd h (by simp)
  dsimp only at h
  injection h with h
  subst h
  exact finalizeScore_score_bounds (govTotal_ok_bounds ht).1

/-- The band characterization of the rating chain: the five labels
partition the rationals by the four thresholds, each boundary belonging
to the higher band. -/
theorem ratingOf_iff (x : ℚ) :
    ((ratingOf x).1 = "Excellent" ↔ 8 ≤ x) ∧
    ((ratingOf x).1 = "Good" ↔ 6.5 ≤ x ∧ x < 8) ∧
    ((ratingOf x).1 = "Fair" ↔ 5 ≤ x ∧ x < 6.5) ∧
    ((ratingOf x).1 = "Needs Improvement" ↔ 3 ≤ x ∧ x < 5) ∧
    ((ratingOf x).1 = "Limited Data" ↔ x < 3) := by
  unfold ratingOf
  split_ifs with h1 h2 h3 h4 <;>
    refine ⟨?_, ?_, ?_, ?_, ?_⟩ <;> constructor <;> intro hh <;>
    first
      | rfl
      | linarith
      | exact ⟨by linarith, by linarith⟩
      | (exfalso; revert hh; decide)

theorem posGuarded_points (t : ℚ → Award) (q : ℚ) :
    awardPoints (posGuarded t (PyVal.vNum q)) = if 0 < q then (t q).1 else 0 := by
  rw [posGuarded_vNum]
  unfold awardPoints
  split_ifs <;> rfl

theorem renewableAward_points (q : ℚ) :
    awardPoints (renewableAward (PyVal.vNum q)) =
      if 0 < q then (renewableTier (PyVal.vNum q) q).1 else 0 := by
  unfold renewableAward; exact posGuarded_points _ q

theorem wasteAward_points (q : ℚ) :
    awardPoints (wasteAward (PyVal.vNum q)) =
      if 0 < q then (wasteTier (PyVal.vNum q) q).1 else 0 := by
  unfold wasteAward; exact posGuarded_points _ q

theorem workforceAward_points (q : ℚ) :
    awardPoints (workforceAward (PyVal.vNum q)) =
      if 0 < q then (workforceTier (PyVal.vNum q) q).1 else 0 := by
  unfold workforceAward; exact posGuarded_points _ q

theorem leadershipAward_points (q : ℚ) :
    awardPoints (leadershipAward (PyVal.vNum q)) =
      if 0 < q then (leadershipTier (PyVal.vNum q) q).1 else 0 := by
  unfold leadershipAward; exact posGuarded_points _ q

theorem boardDivAward_points (q : ℚ) :
    awardPoints (boardDivAward (PyVal.vNum q)) =
      if 0 < q then (boardDivTier (PyVal.vNum q) q).1 else 0 := by
  unfold boardDivAward; exact posGuarded_points _ q

theorem independentAward_points (q : ℚ) :
    awardPoints (independentAward (PyVal.vNum q)) =
      if 0 < q then (independentTier (PyVal.vNum q) q).1 else 0 := by
  unfold independentAward; exact posGuarded_points _ q

theorem safetyAward_points (q : ℚ) :
    awardPoints (safetyAward (PyVal.vNum q)) = (safetyTier (PyVal.vNum q) q).1 := rfl

theorem ethicsAward_points_zero : awardPoints (ethicsAward (PyVal.vNum 0)) = 4 := by
  unfold ethicsAward awardPoints
  norm_num [PyVal.isNone, PyVal.asNum]

theorem envTotal_best : awardPoints (envTotal bestEnvInput) = 8 := by
  simp only [bestEnvInput, envTotal, dictGet, renewableAward, wasteAward, posGuarded,
    scope1Award, scope2Award, scope3Award, waterAward, energyAward, truthyAward,
    renewableTier, wasteTier, PyVal.truthy, PyVal.isNone, PyVal.asNum, awardPoints,
    String.reduceEq, reduceIte]
  norm_num

theorem calculate_overall_empty :
    calculate_overall_score (PyVal.vDict []) = .ok emptyOverall := by
  have he : score_environmental (PyVal.vDict []) = .ok (finalizeScore envFallback (0, [])) :=
    score_environmental_vDict (envTotal_absent rfl rfl rfl rfl rfl rfl rfl)
  have hs : score_social (PyVal.vDict []) = .ok (finalizeScore socFallback (0, [])) :=
    score_social_vDict (socTotal_absent rfl rfl rfl rfl rfl)
  have hg : score_governance (PyVal.vDict []) = .ok (finalizeScore govFallback (0, [])) :=
    score_governance_vDict (govTotal_absent rfl rfl rfl rfl rfl)
  have h := calculate_overall_vDict (d := []) (he.trans (by rw [finalizeScore_zero]))
    (hs.trans (by rw [finalizeScore_zero])) (hg.trans (by rw [finalizeScore_zero]))
  rw [h]
  unfold emptyOverall
  norm_num [ratingOf, breakdownStr, weight_environmental, weight_social, weight_governance,
    pyStr, pyRound2, roundHalfEven, ratFloor]
  all_goals decide

/-- C1: whenever `calculate_overall_score` succeeds on a metrics record,
the embedded `environmental`/`social`/`governance` results are exactly
what the three category scorers return on the record's sub-mappings
(missing sub-mappings defaulting to empty), and `overall_score` equals
`round(env.score*0.40 + social.score*0.30 + governance.score*0.30, 2)`. -/
theorem C1_overall_weighted_round (m : Dict) (r : OverallScoreResult)
    (h : calculate_overall_score (PyVal.vDict m) = .ok r) :
    score_environmental (dictGetD m "environmental" (PyVal.vDict [])) = .ok r.environmental ∧
    score_social (dictGetD m "social" (PyVal.vDict [])) = .ok r.social ∧
    score_governance (dictGetD m "governance" (PyVal.vDict [])) = .ok r.governance ∧
    r.overall_score = pyRound2 (r.environmental.score * 0.40 +
      r.social.score * 0.30 + r.governance.score * 0.30) := by
  obtain ⟨h1, h2, h3, h4, _⟩ := calculate_overall_ok_parts h
  refine ⟨h1, h2, h3, ?_⟩
  rw [h4]
  norm_num [weight_environmental, weight_social, weight_governance]

theorem C1_overall_weighted_round_witness :
    score_environmental (dictGetD ([] : Dict) "environmental" (PyVal.vDict [])) =
      .ok emptyOverall.environmental ∧
    score_social (dictGetD ([] : Dict) "social" (PyVal.vDict [])) = .ok emptyOverall.social ∧
    score_governance (dictGetD ([] : Dict) "governance" (PyVal.vDict [])) =
      .ok emptyOverall.governance ∧
    emptyOverall.overall_score = pyRound2 (emptyOverall.environmental.score * 0.40 +
      emptyOverall.social.score * 0.30 + emptyOverall.governance.score * 0.30) :=
  C1_overall_weighted_round [] emptyOverall calculate_overall_empty

/-- C2: the rating is the band of the unrounded weighted overall,
determined by inclusive lower bounds evaluated highest-first; the five
bands are mutually exclusive and exhaustive over all of ℚ (hence over
[0,10]), and each boundary value belongs to the higher band. -/
theorem C2_rating_bands :
    (∀ (m : Dict) (r : OverallScoreResult), calculate_overall_score (PyVal.vDict m) = .ok r →
      r.rating = (ratingOf (r.environmental.score * 0.40 + r.social.score * 0.30 +
        r.governance.score * 0.30)).1) ∧
    (∀ x : ℚ, ((ratingOf x).1 = "Excellent" ↔ 8 ≤ x) ∧
      ((ratingOf x).1 = "Good" ↔ 6.5 ≤ x ∧ x < 8) ∧
      ((ratingOf x).1 = "Fair" ↔ 5 ≤ x ∧ x < 6.5) ∧
      ((ratingOf x).1 = "Needs Improvement" ↔ 3 ≤ x ∧ x < 5) ∧
      ((ratingOf x).1 = "Limited Data" ↔ x < 3)) ∧
    (ratingOf 8).1 = "Excellent" ∧ (ratingOf 6.5).1 = "Good" ∧
    (ratingOf 5).1 = "Fair" ∧ (ratingOf 3).1 = "Needs Improvement" := by
  refine ⟨?_, ratingOf_iff, ?_, ?_, ?_, ?_⟩
  · intro m r h
    obtain ⟨_, _, _, _, h5⟩ := calculate_overall_ok_parts h
    have h6 := congrArg Prod.fst h5
    simpa [weight_environmental, weight_social, weight_governance] using h6
  · norm_num [ratingOf]
  · norm_num [ratingOf]
  · norm_num [ratingOf]
  · norm_num [ratingOf]

/-- C3: each category scorer is total on any category mapping whose
recognized numeric fields are numeric-or-absent, and the aggregator is
total on every syntactically valid MetricsRecord — including the empty
record and records missing whole category sub-mappings; the result is
always a fully-formed `Except.ok`. -/
theorem C3_scorers_total :
    (∀ v, catOk envCatOk v = true → ∃ r, score_environmental v = .ok r) ∧
    (∀ v, catOk socCatOk v = true → ∃ r, score_social v = .ok r) ∧
    (∀ v, catOk govCatOk v = true → ∃ r, score_governance v = .ok r) ∧
    (∀ v, validRecord v = true → ∃ r, calculate_overall_score v = .ok r) :=
  ⟨fun _ h => score_environmental_ok_of_catOk h,
   fun _ h => score_social_ok_of_catOk h,
   fun _ h => score_governance_ok_of_catOk h,
   fun _ h => calculate_overall_ok_of_valid h⟩

/-- C4: when every recognized metric of a category is absent or None,
the category scorer returns score 0, percentage 0.0 and exactly the
single category-specific fallback string — absent metrics contribute no
points and no rationale line. -/
theorem C4_all_absent_fallback :
    (∀ m : Dict,
      dictGet m "scope_1_emissions" = PyVal.vNone →
      dictGet m "scope_2_emissions" = PyVal.vNone →
      dictGet m "scope_3_emissions" = PyVal.vNone →
      dictGet m "renewable_energy_percentage" = PyVal.vNone →
      dictGet m "waste_recycled_percentage" = PyVal.vNone →
      dictGet m "water_usage" = PyVal.vNone →
      dictGet m "energy_efficiency" = PyVal.vNone →
      score_environmental (PyVal.vDict m) =
        .ok { score := 0, max_score := 10, percentage := 0, details := [envFallback] }) ∧
    (∀ m : Dict,
      dictGet m "women_in_workforce_percentage" = PyVal.vNone →
      dictGet m "women_in_leadership_percentage" = PyVal.vNone →
      dictGet m "board_diversity_percentage" = PyVal.vNone →
      dictGet m "safety_incident_rate" = PyVal.vNone →
      dictGet m "employee_training_hours" = PyVal.vNone →
      score_social (PyVal.vDict m) =
        .ok { score := 0, max_score := 10, percentage := 0, details := [socFallback] }) ∧
    (∀ m : Dict,
      dictGet m "independent_directors_percentage" = PyVal.vNone →
      dictGet m "esg_committee_exists" = PyVal.vNone →
      dictGet m "board_size" = PyVal.vNone →
      dictGet m "ethics_violations_reported" = PyVal.vNone →
      dictGet m "climate_risk_disclosure" = PyVal.vNone →
      score_governance (PyVal.vDict m) =
        .ok { score := 0, max_score := 10, percentage := 0, details := [govFallback] }) := by
  refine ⟨?_, ?_, ?_⟩
  · intro m h1 h2 h3 h4 h5 h6 h7
    rw [score_environmental_vDict (envTotal_absent h1 h2 h3 h4 h5 h6 h7), finalizeScore_zero]
  · intro m h1 h2 h3 h4 h5
    rw [score_social_vDict (socTotal_absent h1 h2 h3 h4 h5), finalizeScore_zero]
  · intro m h1 h2 h3 h4 h5
    rw [score_governance_vDict (govTotal_absent h1 h2 h3 h4 h5), finalizeScore_zero]

/-- C5: each scope-emissions sub-criterion awards its fixed points (1.5,
0.5, 1.0) plus its rationale line whenever the metric holds a structured
quantity (a non-empty mapping, the only present shape the data model
allows these fields), regardless of the quantity inside; an absent or
None value awards nothing.  On a full record carrying only a scope-1
quantity, the environmental score is exactly 1.5. -/
theorem C5_scope_presence :
    (∀ es : Dict, es ≠ [] →
      scope1Award (PyVal.vDict es) = (1.5, ["✓ Reports Scope 1 emissions"]) ∧
      scope2Award (PyVal.vDict es) = (0.5, ["✓ Reports Scope 2 emissions"]) ∧
      scope3Award (PyVal.vDict es) = (1, ["✓ Reports Scope 3 emissions (comprehensive)"])) ∧
    scope1Award PyVal.vNone = (0, []) ∧
    scope2Award PyVal.vNone = (0, []) ∧
    scope3Award PyVal.vNone = (0, []) ∧
    (∀ es : Dict, es ≠ [] →
      score_environmental (PyVal.vDict [("scope_1_emissions", PyVal.vDict es)]) =
        .ok { score := 1.5, max_score := 10, percentage := 15
              , details := ["✓ Reports Scope 1 emissions"] }) := by
  refine ⟨?_, rfl, rfl, rfl, ?_⟩
  · intro es hes
    rcases es with _ | ⟨p, tl⟩
    · exact absurd rfl hes
    · exact ⟨rfl, rfl, rfl⟩
  · intro es hes
    rcases es with _ | ⟨p, tl⟩
    · exact absurd rfl hes
    · simp only [score_environmental, asDict, envTotal, dictGet, scope1Award, scope2Award,
        scope3Award, waterAward, energyAward, truthyAward, renewableAward_vNone,
        wasteAward_vNone, PyVal.truthy, PyVal.isNone, finalizeScore,
        String.reduceEq, reduceIte]
      norm_num [pyRound2, pyRound1, roundHalfEven, ratFloor]

/-- C6: a present zero is the best tier for the two lower-is-better
metrics: `safety_incident_rate == 0` awards 2.0 points with the
excellent-record line (tiers 2.0/1.5/1.0/0.5 for <1/<2/<3/any other
present value), and `ethics_violations_reported == 0` awards the 2.0
transparency base plus the 2.0 zero-violations tier (base plus
2.0/1.5/1.0/0.5 for ==0/<5/<10/≥10); both guards test presence
(`is not None`), not truthiness, and absence awards nothing. -/
theorem C6_zero_is_best :
    safetyAward (PyVal.vNum 0) = .ok (2, ["✓ Excellent safety record (0 incidents)"]) ∧
    ethicsAward (PyVal.vNum 0) =
      .ok (4, ["✓ Transparent ethics reporting", "✓ No ethics violations reported"]) ∧
    (∀ q : ℚ, q < 1 → awardPoints (safetyAward (PyVal.vNum q)) = 2) ∧
    (∀ q : ℚ, 1 ≤ q → q < 2 → awardPoints (safetyAward (PyVal.vNum q)) = 1.5) ∧
    (∀ q : ℚ, 2 ≤ q → q < 3 → awardPoints (safetyAward (PyVal.vNum q)) = 1) ∧
    (∀ q : ℚ, 3 ≤ q → awardPoints (safetyAward (PyVal.vNum q)) = 0.5) ∧
    (∀ q : ℚ, q ≠ 0 → q < 5 → awardPoints (ethicsAward (PyVal.vNum q)) = 3.5) ∧
    (∀ q : ℚ, q ≠ 0 → 5 ≤ q → q < 10 → awardPoints (ethicsAward (PyVal.vNum q)) = 3) ∧
    (∀ q : ℚ, q ≠ 0 → 10 ≤ q → awardPoints (ethicsAward (PyVal.vNum q)) = 2.5) ∧
    safetyAward PyVal.vNone = .ok (0, []) ∧
    ethicsAward PyVal.vNone = .ok (0, []) := by
  refine ⟨?_, ?_, ?_, ?_, ?_, ?_, ?_, ?_, ?_, rfl, rfl⟩
  · simp only [safetyAward, presGuarded, safetyTier, PyVal.isNone, PyVal.asNum, pyStr,
      Bool.false_eq_true, if_false]
    norm_num
    decide
  · simp only [ethicsAward, PyVal.isNone, PyVal.asNum, Bool.false_eq_true, if_false,
      Option.some.injEq]
    norm_num
  · intro q hq
    rw [safetyAward_points]
    unfold safetyTier
    rw [if_pos hq]
  · intro q hq1 hq2
    rw [safetyAward_points]
    unfold safetyTier
    rw [if_neg (by linarith), if_pos hq2]
  · intro q hq1 hq2
    rw [safetyAward_points]
    unfold safetyTier
    rw [if_neg (by linarith), if_neg (by linarith), if_pos hq2]
  · intro q hq
    rw [safetyAward_points]
    unfold safetyTier
    rw [if_neg (by linarith), if_neg (by linarith), if_neg (by linarith)]
  · intro q hq h5
    unfold ethicsAward awardPoints
    simp only [PyVal.isNone, PyVal.asNum, Bool.false_eq_true, if_false, Option.some.injEq]
    rw [if_neg hq]
    rw [if_pos h5]
    norm_num
  · intro q hq h5 h10
    unfold ethicsAward awardPoints
    simp only [PyVal.isNone, PyVal.asNum, Bool.false_eq_true, if_false, Option.some.injEq]
    rw [if_neg hq]
    rw [if_neg (by linarith), if_pos h10]
    norm_num
  · intro q hq h10
    unfold ethicsAward awardPoints
    simp only [PyVal.isNone, PyVal.asNum, Bool.false_eq_true, if_false, Option.some.injEq]
    rw [if_neg hq]
    rw [if_neg (by linarith), if_neg (by linarith)]
    norm_num

/-- C10: the ESG-committee block scores by Python identity (`is True` /
`is False`): the bool True earns 2.0, the bool False earns 0.5, and any
other value — truthy non-bools like 1 or "yes", falsy non-bools like 0,
or absence — earns nothing and adds no rationale line. -/
theorem C10_esg_committee_identity :
    esgAward (PyVal.vBool true) = (2, ["✓ Dedicated ESG committee exists"]) ∧
    esgAward (PyVal.vBool false) = (0.5, ["⚠ No dedicated ESG committee"]) ∧
    (∀ v : PyVal, v ≠ PyVal.vBool true → v ≠ PyVal.vBool false → esgAward v = (0, [])) ∧
    esgAward (PyVal.vNum 1) = (0, []) ∧
    esgAward (PyVal.vStr "yes") = (0, []) ∧
    esgAward (PyVal.vNum 0) = (0, []) := by
  refine ⟨rfl, rfl, ?_, rfl, rfl, rfl⟩
  intro v h1 h2
  cases v with
  | vBool b =>
    cases b with
    | true => exact absurd rfl h1
    | false => exact absurd rfl h2
  | vNone => rfl
  | vNum q => rfl
  | vStr s => rfl
  | vDict es => rfl

/-- C7 counterexample: the uncapped environmental sum never exceeds 8.0
and the concrete all-maxed input attains exactly 8.0, so the claimed
theoretical maximum of 9.5 is wrong (no input reaches above 8.0, let
alone 9.5). -/
theorem C7_counterexample :
    awardPoints (envTotal bestEnvInput) = 8 ∧
    ¬ (∃ (m : Dict) (t : ℚ) (ds : List String), envTotal m = .ok (t, ds) ∧ 8 < t) := by
  refine ⟨envTotal_best, ?_⟩
  rintro ⟨m, t, ds, h, hlt⟩
  have hb := (envTotal_ok_bounds h).2
  exact absurd hb (by simpa using hlt)

/-- C7 (amended): every category score lies in [0, 10]; the capped
rounding shape `round(min(total, 10), 2)` is exactly what the scorer
applies to the uncapped sum; and for the environmental scorer the
theoretical maximum of the uncapped sum is 8.0 (not 9.5), attained at
`bestEnvInput`, so the cap at 10 is a defensive bound there. -/
theorem C7_amended_bounds :
    (∀ (v : PyVal) (r : ScoreResult), score_environmental v = .ok r →
      0 ≤ r.score ∧ r.score ≤ 10) ∧
    (∀ (v : PyVal) (r : ScoreResult), score_social v = .ok r →
      0 ≤ r.score ∧ r.score ≤ 10) ∧
    (∀ (v : PyVal) (r : ScoreResult), score_governance v = .ok r →
      0 ≤ r.score ∧ r.score ≤ 10) ∧
    (∀ (m : Dict) (a : Award), envTotal m = .ok a →
      score_environmental (PyVal.vDict m) = .ok (finalizeScore envFallback a)) ∧
    (∀ (m : Dict) (a : Award), envTotal m = .ok a → a.1 ≤ 8) ∧
    awardPoints (envTotal bestEnvInput) = 8 :=
  ⟨fun _ _ h => score_environmental_ok_bounds h,
   fun _ _ h => score_social_ok_bounds h,
   fun _ _ h => score_governance_ok_bounds h,
   fun _ _ h => score_environmental_vDict h,
   fun _ _ h => (envTotal_ok_bounds h).2,
   envTotal_best⟩

/-- C9 counterexample: on a record whose `environmental` slot is the
number 5 (a non-mapping), the scorer raises Python's AttributeError (the
first `.get` on the non-mapping), not any dedicated `InvalidInputError` —
no such error type exists anywhere in the code. -/
theorem C9_counterexample :
    calculate_overall_score (PyVal.vDict [("environmental", PyVal.vNum 5)]) =
      .error (PyErr.attributeError "object has no attribute get") := by
  unfold calculate_overall_score
  dsimp only [asDict]
  rw [show dictGetD [("environmental", PyVal.vNum 5)] "environmental" (PyVal.vDict []) =
    PyVal.vNum 5 from rfl]
  rw [score_environmental_nonDict (fun es h => PyVal.noConfusion h)]

/-- C9 (amended): the scorer fails fast on a structurally malformed
record — a non-mapping where a category sub-mapping is expected — but
with Python's AttributeError (the code defines no `InvalidInputError`),
whichever category slot is malformed; and it never errors on a valid
record, however many leaves are missing or None. -/
theorem C9_amended_structural :
    (∀ d : Dict, (∀ es, dictGetD d "environmental" (PyVal.vDict []) ≠ PyVal.vDict es) →
      calculate_overall_score (PyVal.vDict d) =
        .error (PyErr.attributeError "object has no attribute get")) ∧
    (∀ (d : Dict) (re : ScoreResult),
      score_environmental (dictGetD d "environmental" (PyVal.vDict [])) = .ok re →
      (∀ es, dictGetD d "social" (PyVal.vDict []) ≠ PyVal.vDict es) →
      calculate_overall_score (PyVal.vDict d) =
        .error (PyErr.attributeError "object has no attribute get")) ∧
    (∀ (d : Dict) (re rs : ScoreResult),
      score_environmental (dictGetD d "environmental" (PyVal.vDict [])) = .ok re →
      score_social (dictGetD d "social" (PyVal.vDict [])) = .ok rs →
      (∀ es, dictGetD d "governance" (PyVal.vDict []) ≠ PyVal.vDict es) →
      calculate_overall_score (PyVal.vDict d) =
        .error (PyErr.attributeError "object has no attribute get")) ∧
    (∀ v, validRecord v = true → ∃ r, calculate_overall_score v = .ok r) := by
  refine ⟨?_, ?_, ?_, fun _ h => calculate_overall_ok_of_valid h⟩
  · intro d hne
    unfold calculate_overall_score
    dsimp only [asDict]
    rw [score_environmental_nonDict hne]
  · intro d re he hne
    unfold calculate_overall_score
    dsimp only [asDict]
    rw [he, score_social_nonDict hne]
  · intro d re rs he hs hne
    unfold calculate_overall_score
    dsimp only [asDict]
    rw [he, hs, score_governance_nonDict hne]

set_option maxHeartbeats 1600000 in
/-- C8: for every recognized percentage metric the awarded points are
monotonically non-decreasing in the metric value over (0, 100], and at
every tier threshold the points are strictly higher than at any value
below it (e.g. renewable 74.9 earns at most 2.5 while 75 earns 3.0). -/
theorem C8_percentage_monotone :
    (∀ x y : ℚ, 0 < x → x ≤ y → y ≤ 100 →
      awardPoints (renewableAward (PyVal.vNum x)) ≤ awardPoints (renewableAward (PyVal.vNum y))) ∧
    (∀ x y : ℚ, 0 < x → x ≤ y → y ≤ 100 →
      awardPoints (wasteAward (PyVal.vNum x)) ≤ awardPoints (wasteAward (PyVal.vNum y))) ∧
    (∀ x y : ℚ, 0 < x → x ≤ y → y ≤ 100 →
      awardPoints (workforceAward (PyVal.vNum x)) ≤ awardPoints (workforceAward (PyVal.vNum y))) ∧
    (∀ x y : ℚ, 0 < x → x ≤ y → y ≤ 100 →
      awardPoints (leadershipAward (PyVal.vNum x)) ≤ awardPoints (leadershipAward (PyVal.vNum y))) ∧
    (∀ x y : ℚ, 0 < x → x ≤ y → y ≤ 100 →
      awardPoints (boardDivAward (PyVal.vNum x)) ≤ awardPoints (boardDivAward (PyVal.vNum y))) ∧
    (∀ x y : ℚ, 0 < x → x ≤ y → y ≤ 100 →
      awardPoints (independentAward (PyVal.vNum x)) ≤ awardPoints (independentAward (PyVal.vNum y))) ∧
    (∀ x : ℚ, 0 < x → x < 25 →
      awardPoints (renewableAward (PyVal.vNum x)) < awardPoints (renewableAward (PyVal.vNum 25))) ∧
    (∀ x : ℚ, 0 < x → x < 50 →
      awardPoints (renewableAward (PyVal.vNum x)) < awardPoints (renewableAward (PyVal.vNum 50))) ∧
    (∀ x : ℚ, 0 < x → x < 75 →
      awardPoints (renewableAward (PyVal.vNum x)) < awardPoints (renewableAward (PyVal.vNum 75))) ∧
    (∀ x : ℚ, 0 < x → x < 25 →
      awardPoints (wasteAward (PyVal.vNum x)) < awardPoints (wasteAward (PyVal.vNum 25))) ∧
    (∀ x : ℚ, 0 < x → x < 50 →
      awardPoints (wasteAward (PyVal.vNum x)) < awardPoints (wasteAward (PyVal.vNum 50))) ∧
    (∀ x : ℚ, 0 < x → x < 75 →
      awardPoints (wasteAward (PyVal.vNum x)) < awardPoints (wasteAward (PyVal.vNum 75))) ∧
    (∀ x : ℚ, 0 < x → x < 25 →
      awardPoints (workforceAward (PyVal.vNum x)) < awardPoints (workforceAward (PyVal.vNum 25))) ∧
    (∀ x : ℚ, 0 < x → x < 35 →
      awardPoints (workforceAward (PyVal.vNum x)) < awardPoints (workforceAward (PyVal.vNum 35))) ∧
    (∀ x : ℚ, 0 < x → x < 45 →
      awardPoints (workforceAward (PyVal.vNum x)) < awardPoints (workforceAward (PyVal.vNum 45))) ∧
    (∀ x : ℚ, 0 < x → x < 20 →
      awardPoints (leadershipAward (PyVal.vNum x)) < awardPoints (leadershipAward (PyVal.vNum 20))) ∧
    (∀ x : ℚ, 0 < x → x < 30 →
      awardPoints (leadershipAward (PyVal.vNum x)) < awardPoints (leadershipAward (PyVal.vNum 30))) ∧
    (∀ x : ℚ, 0 < x → x < 40 →
      awardPoints (leadershipAward (PyVal.vNum x)) < awardPoints (leadershipAward (PyVal.vNum 40))) ∧
    (∀ x : ℚ, 0 < x → x < 20 →
      awardPoints (boardDivAward (PyVal.vNum x)) < awardPoints (boardDivAward (PyVal.vNum 20))) ∧
    (∀ x : ℚ, 0 < x → x < 30 →
      awardPoints (boardDivAward (PyVal.vNum x)) < awardPoints (boardDivAward (PyVal.vNum 30))) ∧
    (∀ x : ℚ, 0 < x → x < 40 →
      awardPoints (boardDivAward (PyVal.vNum x)) < awardPoints (boardDivAward (PyVal.vNum 40))) ∧
    (∀ x : ℚ, 0 < x → x < 50 →
      awardPoints (independentAward (PyVal.vNum x)) < awardPoints (independentAward (PyVal.vNum 50))) ∧
    (∀ x : ℚ, 0 < x → x < 75 →
      awardPoints (independentAward (PyVal.vNum x)) < awardPoints (independentAward (PyVal.vNum 75))) := by
  refine ⟨?_, ?_, ?_, ?_, ?_, ?_, ?_, ?_, ?_, ?_, ?_, ?_, ?_, ?_, ?_, ?_, ?_, ?_, ?_, ?_, ?_,
    ?_, ?_⟩ <;>
  · intros
    norm_num only [renewableAward_points, wasteAward_points, workforceAward_points,
      leadershipAward_points, boardDivAward_points, independentAward_points,
      renewableTier, wasteTier, workforceTier, leadershipTier, boardDivTier, independentTier]
    split_ifs <;> try dsimp only
    all_goals linarith
